import Mathlib

/-!
Verification of the `dxf-hatch-app` backend (`backend/main.py`) against its
specification.  The two HTTP handlers `generate` and `hatch_on_upload` are
embedded shallowly: the external `ezdxf` drawing library is modelled by an
explicit document value (header variables, layer table, model-space entity
list), HTTP exceptions by an error type, and the streamed response by a
structure holding the headers and the serialized document.
-/

namespace DxfHatch

/-- A 2D point, as used for circle centers (floats modelled as exact rationals). -/
structure Vec2 where
  x : ℚ
  y : ℚ
deriving DecidableEq, Repr

/-- State of an ezdxf HATCH entity: layer attribute, associativity flag,
boundary (the circles added through the boundary editor, as center/radius
pairs) and the pattern fill (name, angle, scale) once set. -/
structure Hatch where
  layer : String
  associative : Bool := false
  boundary : List (Vec2 × ℚ) := []
  pattern : Option (String × ℚ × ℚ) := none
deriving DecidableEq, Repr

/-- A model-space entity: a CIRCLE, a HATCH, or any other entity identified
only by its DXF type string. -/
inductive Entity where
  | circle (center : Vec2) (radius : ℚ) (layer : String)
  | hatch (h : Hatch)
  | other (typ : String)
deriving DecidableEq, Repr

/-- The DXF type tag of an entity, as `e.dxftype()` returns it. -/
def Entity.dxftype : Entity → String
  | .circle _ _ _ => "CIRCLE"
  | .hatch _ => "HATCH"
  | .other t => t

/-- Center attribute of a circle entity (`e.dxf.center`); junk default on
entities that carry no such attribute. -/
def Entity.circCenter : Entity → Vec2
  | .circle c _ _ => c
  | _ => ⟨0, 0⟩

/-- Radius attribute of a circle entity (`e.dxf.radius`); junk default on
entities that carry no such attribute. -/
def Entity.circRadius : Entity → ℚ
  | .circle _ r _ => r
  | _ => 0

/-- The ezdxf drawing document: format version, header variables (a
name-keyed dictionary), the layer table, and the model space. -/
structure EzDxfDocument where
  version : String
  header : List (String × Int)
  layers : List String
  msp : List Entity
deriving DecidableEq, Repr

/-- Dictionary-style assignment on the header section (`doc.header[k] = v`). -/
def headerSet (h : List (String × Int)) (k : String) (v : Int) : List (String × Int) :=
  if h.any (fun p => p.1 == k) then h.map (fun p => if p.1 == k then (k, v) else p)
  else h ++ [(k, v)]

/-- Dictionary-style lookup on the header section. -/
def headerLookup (h : List (String × Int)) (k : String) : Option Int :=
  (h.find? (fun p => p.1 == k)).map Prod.snd

/-- Model of `ezdxf.new(setup=True, version=...)`: a fresh document with the
standard layer table and an empty model space. -/
def ezdxf_new (version : String) : EzDxfDocument :=
  { version := version, header := [], layers := ["0", "Defpoints"], msp := [] }

/-- Model of `doc.layers.new(name=...)`: appends an entry to the layer table. -/
def layers_new (doc : EzDxfDocument) (name : String) : EzDxfDocument :=
  { doc with layers := doc.layers ++ [name] }

/-- Source `_doc_with_units`: new document with header variable
`$INSUNITS` set to 4 (millimeters). -/
def _doc_with_units (version : String) : EzDxfDocument :=
  let doc := ezdxf_new version
  { doc with header := headerSet doc.header "$INSUNITS" 4 }

/-- Source `_make_layers`: for each requested name, create the layer only
when it is not already in the document's layer table. -/
def _make_layers (doc : EzDxfDocument) : List String → EzDxfDocument
  | [] => doc
  | name :: rest =>
    _make_layers (if name ∈ doc.layers then doc else layers_new doc name) rest

/-- Model of `msp.add_circle(center, radius, dxfattribs)`. -/
def msp_add_circle (doc : EzDxfDocument) (center : Vec2) (r : ℚ) (layer : String) :
    EzDxfDocument :=
  { doc with msp := doc.msp ++ [Entity.circle center r layer] }

/-- Source `_add_circle_with_hatch`: add the circle, then an associative
hatch whose boundary is that circle, with pattern fill ANSI31 at the given
angle and scale equal to the spacing. -/
def _add_circle_with_hatch (doc : EzDxfDocument) (cx cy r spacing angle_deg : ℚ)
    (layer_circle layer_hatch : String) : EzDxfDocument :=
  let doc := msp_add_circle doc ⟨cx, cy⟩ r layer_circle
  let h0 : Hatch := { layer := layer_hatch }
  let h1 := { h0 with associative := true }
  let h2 := { h1 with boundary := h1.boundary ++ [((⟨cx, cy⟩ : Vec2), r)] }
  let h3 := { h2 with pattern := some ("ANSI31", angle_deg, spacing) }
  { doc with msp := doc.msp ++ [Entity.hatch h3] }

/-- Decimal digit character. -/
def digitChar (n : Nat) : Char := Char.ofNat (48 + n % 10)

/-- Digits after the decimal point of `r / d`, emitted until the remainder
vanishes (fuel-bounded; every float value has a terminating expansion). -/
def fracDigits : Nat → Nat → Nat → List Char
  | 0, _, _ => []
  | fuel + 1, r, d => if r = 0 then [] else digitChar (r * 10 / d) :: fracDigits fuel (r * 10 % d) d

/-- Python `repr` of a float, on exact rational values: sign, integer part,
decimal point, then the fractional digits (a single `0` when none). -/
def ratRepr (q : ℚ) : String :=
  let sgn := if q.num < 0 then "-" else ""
  let a := q.num.natAbs
  let ip := a / q.den
  let r := a % q.den
  let fr := if r = 0 then "0" else String.mk (fracDigits q.den r q.den)
  sgn ++ Nat.repr ip ++ "." ++ fr

/-- Python `int()` on a float value: truncation toward zero. -/
def pyInt (q : ℚ) : Int :=
  if 0 ≤ q.num then ((q.num.toNat / q.den : Nat) : Int)
  else -((q.num.natAbs / q.den : Nat) : Int)

/-- Serialization of one entity into DXF tag pairs (group code, value). -/
def entityTags : Entity → List (Nat × String)
  | .circle c r lay =>
    [(0, "CIRCLE"), (8, lay), (10, ratRepr c.x), (20, ratRepr c.y), (40, ratRepr r)]
  | .hatch h =>
    [(0, "HATCH"), (8, h.layer), (2, ((h.pattern.map Prod.fst).getD "SOLID")),
     (71, if h.associative then "1" else "0"), (91, toString h.boundary.length)]
  | .other t => [(0, t)]

/-- Model of `doc.saveas(buf)` for the external library (a black box per the
specification): the serialized tag stream, with the header section, the
layer table and the model-space entities. -/
def saveas (doc : EzDxfDocument) : List (Nat × String) :=
  [(0, "SECTION"), (2, "HEADER")] ++
    (doc.header.flatMap fun p => [(9, p.1), (70, toString p.2)]) ++
    [(0, "ENDSEC"), (0, "SECTION"), (2, "TABLES")] ++
    (doc.layers.flatMap fun n => [(0, "LAYER"), (2, n)]) ++
    [(0, "ENDSEC"), (0, "SECTION"), (2, "ENTITIES")] ++
    (doc.msp.flatMap entityTags) ++
    [(0, "ENDSEC"), (0, "EOF")]

/-- The JSON body of a `/generate` request, with the source's defaults. -/
structure GenerateParams where
  center_x : ℚ := 0
  center_y : ℚ := 0
  radius : ℚ := 10
  spacing : ℚ := mkRat 1 5
  angle_deg : ℚ := 45
  layer_circle : String := "CIRCLE"
  layer_hatch : String := "HATCH"
  version : String := "R2018"
deriving DecidableEq, Repr

/-- An HTTP error response raised by a handler (`HTTPException`). -/
structure HTTPException where
  status_code : Nat
  detail : String
deriving DecidableEq, Repr

/-- A streaming response: media type, download filename (as placed in the
`Content-Disposition` header), the headers themselves, the streamed bytes
(`saveas` output), and the document those bytes serialize. -/
structure Response where
  media_type : String
  filename : String
  headers : List (String × String)
  body : List (Nat × String)
  doc : EzDxfDocument
deriving DecidableEq, Repr

/-- Source `/generate` handler: build a document in millimeters, ensure both
layers, add the circle with its associative hatch, serialize, and answer with
the `circle_hatch_<spacing>mm_<angle>deg.dxf` attachment. -/
def generate (params : GenerateParams) : Response :=
  let doc := _doc_with_units params.version
  let doc := _make_layers doc [params.layer_circle, params.layer_hatch]
  let doc := _add_circle_with_hatch doc params.center_x params.center_y params.radius
    params.spacing params.angle_deg params.layer_circle params.layer_hatch
  let filename := "circle_hatch_" ++ ratRepr params.spacing ++ "mm_" ++
    toString (pyInt params.angle_deg) ++ "deg.dxf"
  { media_type := "application/dxf"
    filename := filename
    headers := [("Content-Disposition", "attachment; filename=\"" ++ filename ++ "\"")]
    body := saveas doc
    doc := doc }

/-- Python `str.lower`, character by character. -/
def pyLower (s : String) : String := String.mk (s.data.map Char.toLower)

/-- The characters of the extension `".dxf"`. -/
def dxfExt : List Char := ['.', 'd', 'x', 'f']

/-- The upload gate `file.filename.lower().endswith(".dxf")`. -/
def extension_ok (s : String) : Bool := dxfExt.isSuffixOf (pyLower s).data

/-- Characters before the last occurrence of `pat`, or `none` when `pat`
does not occur. -/
def beforeLastOccur (pat : List Char) : List Char → Option (List Char)
  | [] => none
  | c :: cs =>
    match beforeLastOccur pat cs with
    | some p => some (c :: p)
    | none => if pat.isPrefixOf (c :: cs) then some [] else none

/-- Python `s.rsplit(".dxf", 1)[0]`: the text before the last occurrence of
the (case-sensitive) substring `".dxf"`, or all of `s` when it never occurs. -/
def pyRsplitDxfPrefix (s : String) : String :=
  match beforeLastOccur dxfExt s.data with
  | some p => String.mk p
  | none => s

/-- An uploaded file: its client-supplied filename and its raw bytes. -/
structure UploadFile where
  filename : String
  content : List Nat
deriving DecidableEq, Repr

/-- Scan of the model space for the first entity whose DXF type is CIRCLE
(the source's `for e in msp` loop with `break`). -/
def firstCircle : List Entity → Option Entity
  | [] => none
  | e :: es => if e.dxftype = "CIRCLE" then some e else firstCircle es

/-- Source `/hatch-on-upload` handler.  `ezdxf_read` is the external parser
(`ezdxf.read`), passed as a parameter so that theorems can quantify over its
behaviour; the source wraps exactly this call in `try/except`. -/
def hatch_on_upload (ezdxf_read : List Nat → Except String EzDxfDocument)
    (file : UploadFile) (spacing : ℚ) (angle_deg : ℚ) (layer_hatch : String) :
    Except HTTPException Response :=
  if extension_ok file.filename then
    let content := file.content
    match ezdxf_read content with
    | Except.error e => Except.error ⟨400, "DXF non valido: " ++ e⟩
    | Except.ok doc0 =>
      let doc := _make_layers doc0 [layer_hatch]
      match firstCircle doc.msp with
      | none => Except.error ⟨400, "Nessun CIRCLE trovato nel DXF caricato."⟩
      | some fc =>
        let h0 : Hatch := { layer := layer_hatch }
        let h1 := { h0 with associative := true }
        let h2 := { h1 with boundary := h1.boundary ++ [(fc.circCenter, fc.circRadius)] }
        let h3 := { h2 with pattern := some ("ANSI31", angle_deg, spacing) }
        let doc := { doc with msp := doc.msp ++ [Entity.hatch h3] }
        let filename := pyRsplitDxfPrefix file.filename ++ "_HATCHED.dxf"
        Except.ok
          { media_type := "application/dxf"
            filename := filename
            headers := [("Content-Disposition", "attachment; filename=\"" ++ filename ++ "\"")]
            body := saveas doc
            doc := doc }
  else Except.error ⟨400, "Carica un file .dxf"⟩

/-- The download filename of a handler outcome, when it produced a response. -/
def respFilename : Except HTTPException Response → Option String
  | Except.ok r => some r.filename
  | Except.error _ => none

/-- The document carried by a handler outcome, when it produced a response. -/
def respDoc : Except HTTPException Response → Option EzDxfDocument
  | Except.ok r => some r.doc
  | Except.error _ => none

/-- The filename rule in the specification's words: strip the original
extension (recognized case-insensitively) and append the fixed suffix.
Stated only to compare against what the code computes. -/
def spec_filename (original : String) : String :=
  (if dxfExt.isSuffixOf (pyLower original).data
   then String.mk (original.data.take (original.data.length - 4))
   else original) ++ "_HATCHED.dxf"

/-- A parser stub that succeeds with a fixed document, for concrete runs. -/
def parseConst (doc : EzDxfDocument) : List Nat → Except String EzDxfDocument :=
  fun _ => Except.ok doc

/-- A parser stub that always fails with a fixed message, for concrete runs. -/
def parseFail (msg : String) : List Nat → Except String EzDxfDocument :=
  fun _ => Except.error msg

/-- A small parsed document: a line entity followed by two circles. -/
def sampleDoc : EzDxfDocument :=
  { version := "R2018", header := [], layers := ["0"],
    msp := [Entity.other "LINE",
            Entity.circle ⟨1, 2⟩ 5 "L0",
            Entity.circle ⟨9, 9⟩ 7 "L1"] }

/-- A parsed document holding no circle at all. -/
def noCircleDoc : EzDxfDocument :=
  { version := "R2018", header := [], layers := ["0"],
    msp := [Entity.other "LINE", Entity.other "LWPOLYLINE"] }

/-- The ezdxf operations the `/generate` handler calls, each allowed to fail
the way a library call can raise; used to show the handler catches none of
them. -/
structure GenLib where
  newDoc : String → Except String EzDxfDocument
  layerNew : EzDxfDocument → String → Except String EzDxfDocument
  addCircle : EzDxfDocument → Vec2 → ℚ → String → Except String EzDxfDocument
  addHatch : EzDxfDocument → String → Vec2 × ℚ → String × ℚ × ℚ →
    Except String EzDxfDocument
  save : EzDxfDocument → Except String (List (Nat × String))

/-- How a handler run can end when library calls may fail: an HTTP error
raised on purpose, or an uncaught library error (an unhandled server fault). -/
inductive Fault where
  | httpExc (status_code : Nat) (detail : String)
  | libErr (msg : String)
deriving DecidableEq, Repr

/-- Source `_make_layers` threaded through a fallible layer-creation call. -/
def _make_layersE (lib : GenLib) (doc : EzDxfDocument) :
    List String → Except String EzDxfDocument
  | [] => Except.ok doc
  | name :: rest =>
    if name ∈ doc.layers then _make_layersE lib doc rest
    else
      match lib.layerNew doc name with
      | Except.error m => Except.error m
      | Except.ok d => _make_layersE lib d rest

/-- Source `/generate` handler threaded through fallible library calls, with
no try/except anywhere: every library error passes straight through. -/
def generateE (lib : GenLib) (p : GenerateParams) : Except Fault Response :=
  match lib.newDoc p.version with
  | Except.error m => Except.error (Fault.libErr m)
  | Except.ok doc0 =>
    match _make_layersE lib { doc0 with header := headerSet doc0.header "$INSUNITS" 4 }
        [p.layer_circle, p.layer_hatch] with
    | Except.error m => Except.error (Fault.libErr m)
    | Except.ok doc1 =>
      match lib.addCircle doc1 ⟨p.center_x, p.center_y⟩ p.radius p.layer_circle with
      | Except.error m => Except.error (Fault.libErr m)
      | Except.ok doc2 =>
        match lib.addHatch doc2 p.layer_hatch (⟨p.center_x, p.center_y⟩, p.radius)
            ("ANSI31", p.angle_deg, p.spacing) with
        | Except.error m => Except.error (Fault.libErr m)
        | Except.ok doc3 =>
          match lib.save doc3 with
          | Except.error m => Except.error (Fault.libErr m)
          | Except.ok body =>
            let filename := "circle_hatch_" ++ ratRepr p.spacing ++ "mm_" ++
              toString (pyInt p.angle_deg) ++ "deg.dxf"
            Except.ok
              { media_type := "application/dxf"
                filename := filename
                headers := [("Content-Disposition",
                  "attachment; filename=\"" ++ filename ++ "\"")]
                body := body
                doc := doc3 }

theorem make_layers_msp (ns : List String) (doc : EzDxfDocument) :
    (_make_layers doc ns).msp = doc.msp := by
  induction ns generalizing doc with
  | nil => rfl
  | cons n rest ih =>
    show (_make_layers (if n ∈ doc.layers then doc else layers_new doc n) rest).msp = doc.msp
    rw [ih]
    split <;> rfl

theorem make_layers_header (ns : List String) (doc : EzDxfDocument) :
    (_make_layers doc ns).header = doc.header := by
  induction ns generalizing doc with
  | nil => rfl
  | cons n rest ih =>
    show (_make_layers (if n ∈ doc.layers then doc else layers_new doc n) rest).header = doc.header
    rw [ih]
    split <;> rfl

theorem mem_make_layers (ns : List String) (doc : EzDxfDocument) (n : String) :
    n ∈ (_make_layers doc ns).layers ↔ n ∈ doc.layers ∨ n ∈ ns := by
  induction ns generalizing doc with
  | nil => simp [ _make_layers]
  | cons m rest ih =>
    show n ∈ (_make_layers (if m ∈ doc.layers then doc else layers_new doc m) rest).layers ↔ _
    rw [ih]
    by_cases h : m ∈ doc.layers
    · rw [if_pos h]
      simp only [List.mem_cons]
      constructor
      · rintro (hd | hr)
        · exact Or.inl hd
        · exact Or.inr (Or.inr hr)
      · rintro (hd | rfl | hr)
        · exact Or.inl hd
        · exact Or.inl h
        · exact Or.inr hr
    · rw [if_neg h]
      simp only [layers_new, List.mem_append, List.mem_singleton, List.mem_cons]
      tauto

theorem nodup_make_layers (ns : List String) (doc : EzDxfDocument)
    (h : doc.layers.Nodup) : (_make_layers doc ns).layers.Nodup := by
  induction ns generalizing doc with
  | nil => exact h
  | cons m rest ih =>
    show (_make_layers (if m ∈ doc.layers then doc else layers_new doc m) rest).layers.Nodup
    by_cases hm : m ∈ doc.layers
    · rw [if_pos hm]
      exact ih doc h
    · rw [if_neg hm]
      apply ih
      simp only [layers_new, List.nodup_append, List.nodup_singleton, true_and]
      refine ⟨h, ?_⟩
      intro a ha hac
      simp only [List.mem_singleton] at hac
      exact hm (hac ▸ ha)

theorem beforeLastOccur_strip (t : List Char) :
    beforeLastOccur dxfExt (t ++ dxfExt) = some t := by
  induction t with
  | nil => decide
  | cons a t ih =>
    show beforeLastOccur dxfExt (a :: (t ++ dxfExt)) = some (a :: t)
    unfold beforeLastOccur
    rw [ih]

theorem pyInt_eq_trunc (q : ℚ) : pyInt q = if 0 ≤ q then Int.floor q else Int.ceil q := by
  rcases le_or_lt 0 q.num with h | h
  · rw [pyInt, if_pos h, if_pos (Rat.num_nonneg.mp h), Rat.floor_def]
    calc ((q.num.toNat / q.den : Nat) : Int)
        = (q.num.toNat : Int) / (q.den : Int) := Int.ofNat_ediv _ _
      _ = q.num / (q.den : Int) := by rw [Int.toNat_of_nonneg h]
  · have hq : ¬ (0 ≤ q) := by
      rw [← Rat.num_nonneg]
      exact not_le.mpr h
    rw [pyInt, if_neg (not_le.mpr h), if_neg hq]
    have h2 : -q.num = (q.num.natAbs : Int) := by omega
    have h1 : ((q.num.natAbs / q.den : Nat) : Int) = Int.floor (-q) := by
      rw [Rat.floor_def, Rat.neg_num, Rat.neg_den]
      calc ((q.num.natAbs / q.den : Nat) : Int)
          = (q.num.natAbs : Int) / (q.den : Int) := Int.ofNat_ediv _ _
        _ = -q.num / (q.den : Int) := by rw [← h2]
    rw [h1, Int.floor_neg, neg_neg]

/-- C5: when the uploaded filename does not end in ".dxf" (compared
case-insensitively), /hatch-on-upload answers HTTP 400 with detail
"Carica un file .dxf"; the outcome is the same for every possible parser
behaviour, so no byte of the body is parsed and no document is constructed. -/
theorem upload_bad_extension_rejected
    (ezdxf_read : List Nat → Except String EzDxfDocument) (file : UploadFile)
    (spacing angle_deg : ℚ) (layer_hatch : String)
    (h : extension_ok file.filename = false) :
    hatch_on_upload ezdxf_read file spacing angle_deg layer_hatch =
      Except.error ⟨400, "Carica un file .dxf"⟩ := by
  simp [hatch_on_upload, h]

/-- C5 witness: a concrete upload named "notes.txt" is rejected with the
extension message, even though the parser would have succeeded on a document
holding a circle. -/
theorem upload_bad_extension_rejected_witness :
    extension_ok "notes.txt" = false ∧
    hatch_on_upload (parseConst sampleDoc) ⟨"notes.txt", [1, 2, 3]⟩ (mkRat 1 5) 45 "HATCH" =
      Except.error ⟨400, "Carica un file .dxf"⟩ :=
  ⟨by decide, upload_bad_extension_rejected _ _ _ _ _ (by decide)⟩

/-- C6: when the filename passes the extension check but the bytes fail to
parse with message m, /hatch-on-upload answers HTTP 400 whose detail is
"DXF non valido: " followed by m — in particular the detail contains the
parser's message as a suffix. -/
theorem upload_parse_error_rejected
    (ezdxf_read : List Nat → Except String EzDxfDocument) (file : UploadFile)
    (spacing angle_deg : ℚ) (layer_hatch : String) (m : String)
    (hext : extension_ok file.filename = true)
    (hparse : ezdxf_read file.content = Except.error m) :
    hatch_on_upload ezdxf_read file spacing angle_deg layer_hatch =
      Except.error ⟨400, "DXF non valido: " ++ m⟩ ∧
    ∃ pre, "DXF non valido: " ++ m = pre ++ m := by
  refine ⟨?_, ⟨"DXF non valido: ", rfl⟩⟩
  simp [hatch_on_upload, hext, hparse]

/-- C6 witness: a concrete unparsable upload yields the 400 with the parse
error embedded in the detail. -/
theorem upload_parse_error_rejected_witness :
    extension_ok "broken.dxf" = true ∧
    parseFail "invalid tag at line 7" [9, 9] = Except.error "invalid tag at line 7" ∧
    hatch_on_upload (parseFail "invalid tag at line 7") ⟨"broken.dxf", [9, 9]⟩
        (mkRat 1 5) 45 "HATCH" =
      Except.error ⟨400, "DXF non valido: invalid tag at line 7"⟩ :=
  ⟨by decide, rfl,
    (upload_parse_error_rejected (parseFail "invalid tag at line 7") ⟨"broken.dxf", [9, 9]⟩
      (mkRat 1 5) 45 "HATCH" "invalid tag at line 7" (by decide) rfl).1⟩

/-- C7: when the upload parses but the model space holds no entity of DXF
type CIRCLE, /hatch-on-upload answers HTTP 400 stating none was found, and
no response (hence no document) is produced. -/
theorem upload_no_circle_rejected
    (ezdxf_read : List Nat → Except String EzDxfDocument) (file : UploadFile)
    (spacing angle_deg : ℚ) (layer_hatch : String) (doc : EzDxfDocument)
    (hext : extension_ok file.filename = true)
    (hparse : ezdxf_read file.content = Except.ok doc)
    (hnone : firstCircle doc.msp = none) :
    hatch_on_upload ezdxf_read file spacing angle_deg layer_hatch =
      Except.error ⟨400, "Nessun CIRCLE trovato nel DXF caricato."⟩ := by
  simp [hatch_on_upload, hext, hparse, make_layers_msp, hnone]

/-- C7 witness: a concrete circle-free document is rejected with the
no-circle message. -/
theorem upload_no_circle_rejected_witness :
    firstCircle noCircleDoc.msp = none ∧
    hatch_on_upload (parseConst noCircleDoc) ⟨"flat.dxf", [4]⟩ (mkRat 1 5) 45 "HATCH" =
      Except.error ⟨400, "Nessun CIRCLE trovato nel DXF caricato."⟩ :=
  ⟨by decide, upload_no_circle_rejected (parseConst noCircleDoc) ⟨"flat.dxf", [4]⟩
    (mkRat 1 5) 45 "HATCH" noCircleDoc (by decide) rfl (by decide)⟩

/-- C2: on an upload that parses into a document whose first CIRCLE-typed
model-space entity (in stored order) is a circle with center c and radius r,
the handler's response document is the parsed document (hatch layer ensured)
with exactly one appended hatch entity: associative, its boundary duplicating
(c, r), pattern ANSI31 at the supplied angle with scale equal to the supplied
spacing — regardless of any further circles. -/
theorem upload_adds_one_hatch
    (ezdxf_read : List Nat → Except String EzDxfDocument) (file : UploadFile)
    (spacing angle_deg : ℚ) (layer_hatch : String)
    (doc : EzDxfDocument) (c : Vec2) (r : ℚ) (lay : String)
    (hext : extension_ok file.filename = true)
    (hparse : ezdxf_read file.content = Except.ok doc)
    (hfirst : firstCircle doc.msp = some (Entity.circle c r lay)) :
    respDoc (hatch_on_upload ezdxf_read file spacing angle_deg layer_hatch) =
      some { _make_layers doc [layer_hatch] with
             msp := doc.msp ++
               [Entity.hatch { layer := layer_hatch, associative := true,
                               boundary := [(c, r)],
                               pattern := some ("ANSI31", angle_deg, spacing) }] } ∧
    (respDoc (hatch_on_upload ezdxf_read file spacing angle_deg layer_hatch)).map
        (fun d => d.msp.countP (fun e => e.dxftype == "HATCH")) =
      some (doc.msp.countP (fun e => e.dxftype == "HATCH") + 1) := by
  constructor
  · simp [hatch_on_upload, hext, hparse, make_layers_msp, hfirst, respDoc,
      Entity.circCenter, Entity.circRadius]
  · simp [hatch_on_upload, hext, hparse, make_layers_msp, hfirst, respDoc,
      Entity.circCenter, Entity.circRadius, List.countP_append, List.countP_cons,
      Entity.dxftype]

/-- C2 witness: on the sample document (a LINE then two circles) the handler
hatches the first circle, center (1,2) radius 5, ignoring the second circle. -/
theorem upload_adds_one_hatch_witness :
    respDoc (hatch_on_upload (parseConst sampleDoc) ⟨"part.dxf", [0]⟩
        (mkRat 1 5) 45 "HATCH") =
      some { _make_layers sampleDoc ["HATCH"] with
             msp := sampleDoc.msp ++
               [Entity.hatch { layer := "HATCH", associative := true,
                               boundary := [((⟨1, 2⟩ : Vec2), 5)],
                               pattern := some ("ANSI31", 45, mkRat 1 5) }] } :=
  (upload_adds_one_hatch (parseConst sampleDoc) ⟨"part.dxf", [0]⟩ (mkRat 1 5) 45 "HATCH"
    sampleDoc ⟨1, 2⟩ 5 "L0" (by decide) rfl (by decide)).1

/-- C1 is false on the code: the filename "CIRCLE.DXF" passes the
case-insensitive extension check, but the handler's rsplit on the
case-sensitive substring ".dxf" finds nothing to strip, so the response is
named "CIRCLE.DXF_HATCHED.dxf" and not "CIRCLE_HATCHED.dxf" as the claimed
basename rule requires. -/
theorem upload_uppercase_not_stripped_cex :
    extension_ok "CIRCLE.DXF" = true ∧
    respFilename (hatch_on_upload (parseConst sampleDoc) ⟨"CIRCLE.DXF", [0]⟩
        (mkRat 1 5) 45 "HATCH") = some "CIRCLE.DXF_HATCHED.dxf" ∧
    spec_filename "CIRCLE.DXF" = "CIRCLE_HATCHED.dxf" ∧
    ("CIRCLE.DXF_HATCHED.dxf" : String) ≠ "CIRCLE_HATCHED.dxf" :=
  ⟨by decide, by decide, by decide, by decide⟩

/-- C1 (amended): whenever /hatch-on-upload produces a response, its filename
is the portion of the original filename before the last occurrence of the
case-sensitive substring ".dxf" (the whole filename when it never occurs),
followed by "_HATCHED.dxf"; in particular a filename ending in lower-case
".dxf" has that extension stripped, while an upper-case ".DXF" one does not. -/
theorem upload_filename_formula
    (ezdxf_read : List Nat → Except String EzDxfDocument) (file : UploadFile)
    (spacing angle_deg : ℚ) (layer_hatch : String) :
    (respFilename (hatch_on_upload ezdxf_read file spacing angle_deg layer_hatch) = none ∨
     respFilename (hatch_on_upload ezdxf_read file spacing angle_deg layer_hatch) =
       some (pyRsplitDxfPrefix file.filename ++ "_HATCHED.dxf")) ∧
    (∀ t : List Char, file.filename.data = t ++ dxfExt →
      pyRsplitDxfPrefix file.filename = String.mk t) := by
  constructor
  · by_cases hext : extension_ok file.filename = true
    · cases hp : ezdxf_read file.content with
      | error m => exact Or.inl (by simp [hatch_on_upload, hext, hp, respFilename])
      | ok doc =>
        cases hfc : firstCircle (_make_layers doc [layer_hatch]).msp with
        | none => exact Or.inl (by simp [hatch_on_upload, hext, hp, hfc, respFilename])
        | some fc => exact Or.inr (by simp [hatch_on_upload, hext, hp, hfc, respFilename])
    · exact Or.inl (by simp [hatch_on_upload, hext, respFilename])
  · intro t ht
    unfold pyRsplitDxfPrefix
    rw [ht, beforeLastOccur_strip]

/-- C1 (amended) witness: a filename ending in lower-case ".dxf" really is
stripped down to its basename. -/
theorem upload_filename_formula_witness :
    pyRsplitDxfPrefix "drawing.dxf" = String.mk "drawing".data :=
  (upload_filename_formula (parseConst sampleDoc) ⟨"drawing.dxf", [0]⟩
    (mkRat 1 5) 45 "HATCH").2 "drawing".data (by decide)

/-- C3: the /generate response filename (also as placed inside the
Content-Disposition header) is exactly circle_hatch_<spacing>mm_<angle>deg.dxf,
where <spacing> prints the exact supplied spacing value and <angle> is the
supplied angle truncated toward zero (floor for nonnegative angles, ceiling
for negative ones). -/
theorem generate_filename (p : GenerateParams) (hr : 0 < p.radius) (hs : 0 < p.spacing) :
    (generate p).filename =
      "circle_hatch_" ++ ratRepr p.spacing ++ "mm_" ++
        toString (pyInt p.angle_deg) ++ "deg.dxf" ∧
    (generate p).headers =
      [("Content-Disposition",
        "attachment; filename=\"" ++
          ("circle_hatch_" ++ ratRepr p.spacing ++ "mm_" ++
            toString (pyInt p.angle_deg) ++ "deg.dxf") ++ "\"")] ∧
    pyInt p.angle_deg =
      if 0 ≤ p.angle_deg then Int.floor p.angle_deg else Int.ceil p.angle_deg :=
  ⟨rfl, rfl, pyInt_eq_trunc _⟩

/-- C3 witness: spacing 0.2 and angle 45.5 give circle_hatch_0.2mm_45deg.dxf —
the spacing is embedded exactly and the angle is truncated to 45. -/
theorem generate_filename_witness :
    (0 : ℚ) < ({ spacing := mkRat 1 5, angle_deg := mkRat 91 2 } : GenerateParams).radius ∧
    (0 : ℚ) < ({ spacing := mkRat 1 5, angle_deg := mkRat 91 2 } : GenerateParams).spacing ∧
    (generate { spacing := mkRat 1 5, angle_deg := mkRat 91 2 }).filename =
      "circle_hatch_0.2mm_45deg.dxf" := by
  refine ⟨by decide, by decide, ?_⟩
  have h := (generate_filename { spacing := mkRat 1 5, angle_deg := mkRat 91 2 }
    (by decide) (by decide)).1
  rw [h]
  decide

/-- C4: after /generate both requested layer names are present exactly once
in the produced document's layer table, which stays duplicate-free; and layer
creation is idempotent — requesting a name already in the table returns the
document unchanged, hence no duplicate and no error (this also covers the
case layer_circle = layer_hatch). -/
theorem generate_layers_exactly_once (p : GenerateParams)
    (hr : 0 < p.radius) (hs : 0 < p.spacing) :
    ((generate p).doc.layers.count p.layer_circle = 1 ∧
     (generate p).doc.layers.count p.layer_hatch = 1 ∧
     (generate p).doc.layers.Nodup) ∧
    (∀ (doc : EzDxfDocument) (name : String), name ∈ doc.layers →
      _make_layers doc [name] = doc) := by
  constructor
  · have hl : (generate p).doc.layers =
        (_make_layers (_doc_with_units p.version)
          [p.layer_circle, p.layer_hatch]).layers := rfl
    have hnd0 : (_doc_with_units p.version).layers.Nodup := by
      show (["0", "Defpoints"] : List String).Nodup
      decide
    have hnd := nodup_make_layers [p.layer_circle, p.layer_hatch] _ hnd0
    have hm1 : p.layer_circle ∈ (_make_layers (_doc_with_units p.version)
        [p.layer_circle, p.layer_hatch]).layers :=
      (mem_make_layers _ _ _).mpr (Or.inr (by simp))
    have hm2 : p.layer_hatch ∈ (_make_layers (_doc_with_units p.version)
        [p.layer_circle, p.layer_hatch]).layers :=
      (mem_make_layers _ _ _).mpr (Or.inr (by simp))
    rw [hl]
    exact ⟨List.count_eq_one_of_mem hnd hm1, List.count_eq_one_of_mem hnd hm2, hnd⟩
  · intro doc name h
    simp [ _make_layers, h]

/-- C4 witness: a request naming the same layer twice still yields a single
occurrence and a duplicate-free table. -/
theorem generate_layers_exactly_once_witness :
    (0 : ℚ) < ({ layer_circle := "SAME", layer_hatch := "SAME" } : GenerateParams).radius ∧
    (0 : ℚ) < ({ layer_circle := "SAME", layer_hatch := "SAME" } : GenerateParams).spacing ∧
    (generate { layer_circle := "SAME", layer_hatch := "SAME" }).doc.layers.count "SAME" = 1 ∧
    (generate { layer_circle := "SAME", layer_hatch := "SAME" }).doc.layers.Nodup := by
  have h := (generate_layers_exactly_once { layer_circle := "SAME", layer_hatch := "SAME" }
    (by decide) (by decide)).1
  exact ⟨by decide, by decide, h.1, h.2.2⟩

/-- C9: for positive radius and spacing, /generate returns a non-empty
serialized stream, and the produced document's $INSUNITS header variable is 4
(millimeters). -/
theorem generate_nonempty_millimeters (p : GenerateParams)
    (hr : 0 < p.radius) (hs : 0 < p.spacing) :
    (generate p).body ≠ [] ∧
    headerLookup (generate p).doc.header "$INSUNITS" = some 4 := by
  constructor
  · show saveas _ ≠ []
    simp [saveas]
  · have h : (generate p).doc.header = (_doc_with_units p.version).header :=
      make_layers_header [p.layer_circle, p.layer_hatch] (_doc_with_units p.version)
    rw [h]
    rfl

/-- C9 witness: the default request produces a non-empty stream declaring
millimeter units. -/
theorem generate_nonempty_millimeters_witness :
    (0 : ℚ) < ({} : GenerateParams).radius ∧
    (0 : ℚ) < ({} : GenerateParams).spacing ∧
    (generate {}).body ≠ [] ∧
    headerLookup (generate {}).doc.header "$INSUNITS" = some 4 := by
  have h := generate_nonempty_millimeters {} (by decide) (by decide)
  exact ⟨by decide, by decide, h.1, h.2⟩

/-- C8: the /generate handler catches nothing: a run either produces a
response or ends in an uncaught library error — never a deliberately raised
HTTPException — and a failing document-construction call propagates its
message unchanged as the unhandled fault. -/
theorem generate_uncaught (lib : GenLib) (p : GenerateParams) :
    (∀ e, generateE lib p = Except.error e → ∃ m, e = Fault.libErr m) ∧
    (∀ m, lib.newDoc p.version = Except.error m →
      generateE lib p = Except.error (Fault.libErr m)) := by
  constructor
  · intro e h
    unfold generateE at h
    split at h
    · exact ⟨_, (Except.error.inj h).symm⟩
    · split at h
      · exact ⟨_, (Except.error.inj h).symm⟩
      · split at h
        · exact ⟨_, (Except.error.inj h).symm⟩
        · split at h
          · exact ⟨_, (Except.error.inj h).symm⟩
          · split at h
            · exact ⟨_, (Except.error.inj h).symm⟩
            · simp at h
  · intro m hm
    unfold generateE
    rw [hm]

/-- C8 witness: a failing document-construction call surfaces as the
library's own error, not as an HTTP 400/500 with a domain message. -/
theorem generate_uncaught_witness :
    generateE { newDoc := fun _ => Except.error "bad version",
                layerNew := fun d _ => Except.ok d,
                addCircle := fun d _ _ _ => Except.ok d,
                addHatch := fun d _ _ _ => Except.ok d,
                save := fun _ => Except.ok [] } {} =
      Except.error (Fault.libErr "bad version") :=
  (generate_uncaught _ _).2 "bad version" rfl

/-- C10: /hatch-on-upload constrains neither spacing nor angle: over all
spacing and angle values, it errors — and every error is an HTTP 400 —
exactly when the extension check fails, parsing fails, or no circle is
found; the right-hand conditions mention neither spacing nor angle. -/
theorem upload_reject_iff
    (ezdxf_read : List Nat → Except String EzDxfDocument) (file : UploadFile)
    (spacing angle_deg : ℚ) (layer_hatch : String) :
    ((∃ d, hatch_on_upload ezdxf_read file spacing angle_deg layer_hatch =
        Except.error ⟨400, d⟩) ↔
      (extension_ok file.filename = false ∨
       (∃ m, ezdxf_read file.content = Except.error m) ∨
       (∃ doc, ezdxf_read file.content = Except.ok doc ∧
         firstCircle doc.msp = none))) ∧
    ((∃ e, hatch_on_upload ezdxf_read file spacing angle_deg layer_hatch =
        Except.error e) ↔
      (extension_ok file.filename = false ∨
       (∃ m, ezdxf_read file.content = Except.error m) ∨
       (∃ doc, ezdxf_read file.content = Except.ok doc ∧
         firstCircle doc.msp = none))) := by
  by_cases hext : extension_ok file.filename = true
  · cases hp : ezdxf_read file.content with
    | error m =>
      constructor <;> simp [hatch_on_upload, hext, hp]
    | ok doc =>
      cases hfc : firstCircle doc.msp with
      | none =>
        constructor <;> simp [hatch_on_upload, hext, hp, make_layers_msp, hfc]
      | some fc =>
        constructor <;> simp [hatch_on_upload, hext, hp, make_layers_msp, hfc]
  · rw [Bool.not_eq_true] at hext
    constructor <;> simp [hatch_on_upload, hext]

/-- C10 witness: with arbitrary spacing and angle, a circle-free upload is
still the thing that triggers the 400, via the characterization. -/
theorem upload_reject_iff_witness :
    ∃ d, hatch_on_upload (parseConst noCircleDoc) ⟨"empty.dxf", [7]⟩
        (mkRat (-3) 2) (mkRat (-1) 4) "HATCH" = Except.error ⟨400, d⟩ :=
  ((upload_reject_iff (parseConst noCircleDoc) ⟨"empty.dxf", [7]⟩
      (mkRat (-3) 2) (mkRat (-1) 4) "HATCH").1).mpr
    (Or.inr (Or.inr ⟨noCircleDoc, rfl, by decide⟩))

end DxfHatch
